import Mathlib

/-!
Shallow embedding of the inventory reservation engine
(`src/inventory/models/product.py`, `src/inventory/models/reservation.py`,
`src/inventory/store/memory.py`, `src/inventory/api/validators.py`,
`src/inventory/api/routes.py`).

Python integers are modelled as `Int`; timestamps (`datetime`) as `Nat`
instants passed explicitly to each operation that reads the clock.
The two `dict`s of the store are modelled as lists in insertion order
(Python dicts iterate in insertion order); the UUID generator for
reservation identifiers is modelled as a fresh-counter in the store.
-/

/-- `StockStatus` from `models/product.py`. -/
inductive StockStatus
  | in_stock
  | low_stock
  | out_of_stock
deriving DecidableEq, Repr

/-- `Product` dataclass from `models/product.py`. -/
structure Product where
  product_id : String
  name : String
  quantity : Int
  reserved : Int := 0
  warehouse : String := "us-west-2a"
deriving DecidableEq, Repr

/-- `Product.available`: `max(0, self.quantity - self.reserved)`. -/
def Product.available (p : Product) : Int :=
  max 0 (p.quantity - p.reserved)

/-- `Product.status`: out-of-stock if `available <= 0`, low-stock if
`available < 10`, otherwise in-stock. -/
def Product.status (p : Product) : StockStatus :=
  if p.available ≤ 0 then StockStatus.out_of_stock
  else if p.available < 10 then StockStatus.low_stock
  else StockStatus.in_stock

/-- `ReservationStatus` from `models/reservation.py`. -/
inductive ReservationStatus
  | active
  | fulfilled
  | expired
  | cancelled
deriving DecidableEq, Repr

/-- `Reservation` dataclass from `models/reservation.py`.  `expires_at` is
`Option Nat` because the dataclass default is `None`. -/
structure Reservation where
  product_id : String
  quantity : Int
  order_id : String := ""
  reservation_id : String
  status : ReservationStatus := ReservationStatus.active
  created_at : Nat
  expires_at : Option Nat := none
deriving DecidableEq, Repr

/-- `Reservation.is_expired`: `False` when `expires_at` is `None`, otherwise
`datetime.now() > expires_at`, i.e. the expiry instant is strictly before
`now`. -/
def Reservation.is_expired (r : Reservation) (now : Nat) : Bool :=
  match r.expires_at with
  | none => false
  | some e => decide (e < now)

/-- State of `InMemoryInventoryStore` from `store/memory.py`:
`_products`, `_reservations`, `_reservation_ttl`, plus the fresh counter
standing in for `uuid.uuid4()`. -/
structure Store where
  products : List Product
  reservations : List Reservation
  reservation_ttl : Nat
  next_id : Nat
deriving DecidableEq, Repr

/-- `InMemoryInventoryStore.get_product`: dict lookup by product id. -/
def Store.get_product (s : Store) (pid : String) : Option Product :=
  s.products.find? (fun p => p.product_id == pid)

/-- Point update of the product dict: apply `f` to the entry whose key is
`pid` (dict keys are unique, so at most one entry changes). -/
def updateProduct (ps : List Product) (pid : String) (f : Product → Product) :
    List Product :=
  ps.map (fun p => if p.product_id == pid then f p else p)

/-- `product.reserved = max(0, product.reserved - quantity)` applied to the
entry for `pid`, as done by `release` and `expire_reservations`. -/
def releaseQty (ps : List Product) (pid : String) (q : Int) : List Product :=
  updateProduct ps pid (fun p => { p with reserved := max 0 (p.reserved - q) })

/-- `InMemoryInventoryStore.reserve`.  Returns the post-state and
`Reservation` on success, the unchanged state and `none` on failure. -/
def Store.reserve (s : Store) (now : Nat) (pid : String) (quantity : Int)
    (order_id : String) : Store × Option Reservation :=
  match s.get_product pid with
  | none => (s, none)
  | some product =>
    if product.available < quantity then (s, none)
    else
      let res : Reservation :=
        { product_id := pid
          quantity := quantity
          order_id := order_id
          reservation_id := toString s.next_id
          status := ReservationStatus.active
          created_at := now
          expires_at := some (now + s.reservation_ttl) }
      ({ s with
          products := updateProduct s.products pid
            (fun p => { p with reserved := p.reserved + quantity })
          reservations := s.reservations ++ [res]
          next_id := s.next_id + 1 },
       some res)

/-- `InMemoryInventoryStore.release`. -/
def Store.release (s : Store) (pid : String) (quantity : Int) : Store × Bool :=
  match s.get_product pid with
  | none => (s, false)
  | some _ => ({ s with products := releaseQty s.products pid quantity }, true)

/-- `InMemoryInventoryStore.get_reservation`. -/
def Store.get_reservation (s : Store) (rid : String) : Option Reservation :=
  s.reservations.find? (fun r => r.reservation_id == rid)

/-- The sweep condition of `expire_reservations`:
`res.status == ReservationStatus.ACTIVE and res.is_expired()`. -/
def expCond (now : Nat) (r : Reservation) : Bool :=
  decide (r.status = ReservationStatus.active) && r.is_expired now

/-- The status transition a sweep applies to one reservation. -/
def expMark (now : Nat) (r : Reservation) : Reservation :=
  if expCond now r then { r with status := ReservationStatus.expired } else r

/-- One iteration of the `expire_reservations` loop, threading the product
dict, the rebuilt reservation list and the expired count. -/
def expireStep (now : Nat) (acc : List Product × List Reservation × Nat)
    (r : Reservation) : List Product × List Reservation × Nat :=
  if expCond now r then
    (releaseQty acc.1 r.product_id r.quantity,
     acc.2.1 ++ [{ r with status := ReservationStatus.expired }],
     acc.2.2 + 1)
  else
    (acc.1, acc.2.1 ++ [r], acc.2.2)

/-- `InMemoryInventoryStore.expire_reservations`: sweep every reservation in
insertion order; each stale active one is marked expired, its quantity is
returned to its product (clamped at 0), and the count is returned. -/
def Store.expire_reservations (s : Store) (now : Nat) : Store × Nat :=
  let acc := s.reservations.foldl (expireStep now) (s.products, [], 0)
  ({ s with products := acc.1, reservations := acc.2.1 }, acc.2.2)

/-- Releasing the quantities of a list of reservations back to the product
dict, one after the other. -/
def releaseAll (ps : List Product) (rs : List Reservation) : List Product :=
  rs.foldl (fun acc r => releaseQty acc r.product_id r.quantity) ps

/-- `InMemoryInventoryStore._seed_catalog`: the Astronomy Shop catalog. -/
def seedCatalog : List Product :=
  [ { product_id := "OLJCESPC7Z", name := "National Park Foundation Explorascope", quantity := 100 },
    { product_id := "66VCHSJNUP", name := "Starsense Explorer Telescope", quantity := 50 },
    { product_id := "1YMWWN1N4O", name := "Roof Binoculars", quantity := 200 },
    { product_id := "L9ECAV7KIM", name := "Eclipsmart Travel Refractor Telescope", quantity := 30 },
    { product_id := "2ZYFJ3GM2N", name := "Solar System Color Imager", quantity := 75 },
    { product_id := "0PUK6V6EV0", name := "Solar Filter", quantity := 150 },
    { product_id := "LS4PSXUNUM", name := "Red Flashlight", quantity := 500 },
    { product_id := "9SIQT8TOJO", name := "Optical Tube Assembly", quantity := 25 },
    { product_id := "6E92ZMYYFZ", name := "The Comet Book", quantity := 300 },
    { product_id := "HQTGWGPNH4", name := "Lens Cleaning Kit", quantity := 1000 } ]

/-- `InMemoryInventoryStore.__init__` with a given `reservation_ttl_seconds`. -/
def initStore (ttl : Nat) : Store :=
  { products := seedCatalog
    reservations := []
    reservation_ttl := ttl
    next_id := 0 }

/-- `validate_reserve_request` from `api/validators.py`, on a request whose
`product_id` is `pid` (empty string standing for missing/falsy) and whose
`quantity` is the integer `q`. -/
def validate_reserve_request (pid : String) (q : Int) : Option String :=
  if pid = "" then some "product_id is required"
  else if q < 1 then some "quantity must be a positive integer"
  else if q > 50 then some "quantity exceeds maximum of 50 per reservation"
  else none

/-- `validate_release_request` from `api/validators.py`. -/
def validate_release_request (pid : String) (q : Int) : Option String :=
  if pid = "" then some "product_id is required"
  else if q < 1 then some "quantity must be a positive integer"
  else none

/-- Outcome of the `/api/inventory/reserve` route, as a discriminated value:
201 with the reservation, 404 not-found, or 409 insufficient-stock carrying
`available` and `requested`. -/
inductive ReserveOutcome
  | created (r : Reservation)
  | notFound
  | insufficientStock (available : Int) (requested : Int)
deriving DecidableEq, Repr

/-- `reserve_stock` from `api/routes.py` (after validation): call
`store.reserve`; on `None` re-query `get_product` to distinguish a missing
product (404) from insufficient stock (409 carrying `available`). -/
def reserve_stock_route (s : Store) (now : Nat) (pid : String) (q : Int)
    (oid : String) : Store × ReserveOutcome :=
  let out := s.reserve now pid q oid
  match out.2 with
  | some r => (out.1, ReserveOutcome.created r)
  | none =>
    match out.1.get_product pid with
    | none => (out.1, ReserveOutcome.notFound)
    | some p => (out.1, ReserveOutcome.insufficientStock p.available q)

/-- A store operation, for quantifying over sequences of mutations. -/
inductive Op
  | reserveOp (now : Nat) (pid : String) (q : Int) (oid : String)
  | releaseOp (pid : String) (q : Int)
  | expireOp (now : Nat)
deriving DecidableEq, Repr

/-- Run one operation, discarding the returned value. -/
def applyOp (s : Store) : Op → Store
  | Op.reserveOp now pid q oid => (s.reserve now pid q oid).1
  | Op.releaseOp pid q => (s.release pid q).1
  | Op.expireOp now => (s.expire_reservations now).1

/-- Run a sequence of operations from a starting state. -/
def runOps (s : Store) (ops : List Op) : Store :=
  ops.foldl applyOp s

/-- The quantity argument of an operation is nonnegative. -/
def opNonneg : Op → Prop
  | Op.reserveOp _ _ q _ => 0 ≤ q
  | Op.releaseOp _ q => 0 ≤ q
  | Op.expireOp _ => True

instance : DecidablePred opNonneg := by
  intro op
  cases op <;> simp [opNonneg] <;> infer_instance

/-- The product part of the spec invariant: `0 ≤ reserved ≤ quantity` for
every product in the store. -/
def productsInv (s : Store) : Prop :=
  ∀ p ∈ s.products, 0 ≤ p.reserved ∧ p.reserved ≤ p.quantity

instance (s : Store) : Decidable (productsInv s) := by
  unfold productsInv
  infer_instance

/-- Full store invariant used for preservation: the product bounds, every
reservation quantity nonnegative, and unique product keys (a Python dict
cannot hold two entries with the same key). -/
def StoreInv (s : Store) : Prop :=
  productsInv s ∧
  (∀ r ∈ s.reservations, 0 ≤ r.quantity) ∧
  (s.products.map Product.product_id).Nodup

instance (s : Store) : Decidable (StoreInv s) := by
  unfold StoreInv
  infer_instance

/-! ### Helper lemmas about the product dict -/

theorem find?_updateProduct (ps : List Product) (pid : String)
    (f : Product → Product) (hf : ∀ p, (f p).product_id = p.product_id) :
    (updateProduct ps pid f).find? (fun p => p.product_id == pid) =
      (ps.find? (fun p => p.product_id == pid)).map f := by
  induction ps with
  | nil => rfl
  | cons a ps ih =>
    simp only [updateProduct, List.map_cons] at ih ⊢
    by_cases h : a.product_id = pid
    · have hb : (a.product_id == pid) = true := by simp [h]
      have hb2 : ((f a).product_id == pid) = true := by simp [hf a, h]
      rw [if_pos hb,
        @List.find?_cons_of_pos _ (fun p => p.product_id == pid) (f a) _ hb2,
        @List.find?_cons_of_pos _ (fun p => p.product_id == pid) a ps hb]
      rfl
    · have hb : ¬ ((a.product_id == pid) = true) := by simp [h]
      rw [if_neg hb,
        @List.find?_cons_of_neg _ (fun p => p.product_id == pid) a _ hb,
        @List.find?_cons_of_neg _ (fun p => p.product_id == pid) a ps hb]
      exact ih

theorem keys_updateProduct (ps : List Product) (pid : String)
    (f : Product → Product) (hf : ∀ p, (f p).product_id = p.product_id) :
    (updateProduct ps pid f).map Product.product_id =
      ps.map Product.product_id := by
  simp only [updateProduct, List.map_map]
  apply List.map_congr_left
  intro a _
  by_cases h : a.product_id = pid
  · simp [h, hf]
  · simp [h]

theorem find?_eq_of_mem_key (ps : List Product) (pid : String)
    (hnd : (ps.map Product.product_id).Nodup) (p₀ : Product) (hmem : p₀ ∈ ps)
    (hk : p₀.product_id = pid) :
    ps.find? (fun p => p.product_id == pid) = some p₀ := by
  induction ps with
  | nil => cases hmem
  | cons a ps ih =>
    simp only [List.map_cons, List.nodup_cons] at hnd
    rcases List.mem_cons.mp hmem with h | h
    · subst h
      have hb : (p₀.product_id == pid) = true := by simp [hk]
      exact @List.find?_cons_of_pos _ (fun p => p.product_id == pid) p₀ ps hb
    · by_cases ha : a.product_id = pid
      · exfalso
        apply hnd.1
        have hm : p₀.product_id ∈ ps.map Product.product_id :=
          List.mem_map.mpr ⟨p₀, h, rfl⟩
        rw [ha, ← hk]
        exact hm
      · have hb : ¬ ((a.product_id == pid) = true) := by simp [ha]
        rw [@List.find?_cons_of_neg _ (fun p => p.product_id == pid) a ps hb]
        exact ih hnd.2 h

theorem mem_updateProduct {ps : List Product} {pid : String}
    {f : Product → Product} {p' : Product} (h : p' ∈ updateProduct ps pid f) :
    ∃ p ∈ ps, p' = if p.product_id == pid then f p else p := by
  rcases List.mem_map.mp h with ⟨p, hp, rfl⟩
  exact ⟨p, hp, rfl⟩

theorem get_product_release (s : Store) (pid : String) (q : Int) (p : Product)
    (hp : s.get_product pid = some p) :
    (s.release pid q).1.get_product pid =
      some { p with reserved := max 0 (p.reserved - q) } := by
  unfold Store.release
  rw [hp]
  show (releaseQty s.products pid q).find? (fun x => x.product_id == pid) = _
  unfold releaseQty
  rw [find?_updateProduct s.products pid
    (fun p => { p with reserved := max 0 (p.reserved - q) }) (fun _ => rfl)]
  unfold Store.get_product at hp
  rw [hp]
  rfl

/-! ### Unfolding lemmas for `reserve` -/

/-- The reservation record built by a successful `reserve`. -/
def newReservation (s : Store) (now : Nat) (pid : String) (q : Int)
    (oid : String) : Reservation :=
  { product_id := pid
    quantity := q
    order_id := oid
    reservation_id := toString s.next_id
    status := ReservationStatus.active
    created_at := now
    expires_at := some (now + s.reservation_ttl) }

theorem reserve_not_found (s : Store) (now : Nat) (pid oid : String) (q : Int)
    (hp : s.get_product pid = none) : s.reserve now pid q oid = (s, none) := by
  unfold Store.reserve
  rw [hp]

theorem reserve_insufficient (s : Store) (now : Nat) (pid oid : String)
    (q : Int) (p : Product) (hp : s.get_product pid = some p)
    (hav : p.available < q) : s.reserve now pid q oid = (s, none) := by
  unfold Store.reserve
  rw [hp]
  simp [hav]

theorem reserve_found (s : Store) (now : Nat) (pid oid : String) (q : Int)
    (p : Product) (hp : s.get_product pid = some p)
    (hav : ¬ p.available < q) :
    s.reserve now pid q oid =
      ({ s with
          products := updateProduct s.products pid
            (fun x => { x with reserved := x.reserved + q })
          reservations := s.reservations ++ [newReservation s now pid q oid]
          next_id := s.next_id + 1 },
       some (newReservation s now pid q oid)) := by
  unfold Store.reserve
  rw [hp]
  simp [hav]
  rfl

theorem get_product_reserve (s : Store) (now : Nat) (pid oid : String)
    (q : Int) (p : Product) (hp : s.get_product pid = some p)
    (hav : ¬ p.available < q) :
    (s.reserve now pid q oid).1.get_product pid =
      some { p with reserved := p.reserved + q } := by
  rw [reserve_found s now pid oid q p hp hav]
  show (updateProduct s.products pid _).find? (fun x => x.product_id == pid) = _
  rw [find?_updateProduct s.products pid
    (fun x => { x with reserved := x.reserved + q }) (fun _ => rfl)]
  unfold Store.get_product at hp
  rw [hp]
  rfl

/-! ### Characterization of the sweep -/

theorem foldl_expireStep (now : Nat) (rs : List Reservation) :
    ∀ (ps : List Product) (rs0 : List Reservation) (c : Nat),
    rs.foldl (expireStep now) (ps, rs0, c) =
      (releaseAll ps (rs.filter (expCond now)),
       rs0 ++ rs.map (expMark now),
       c + (rs.filter (expCond now)).length) := by
  induction rs with
  | nil =>
    intro ps rs0 c
    simp [releaseAll]
  | cons r rs ih =>
    intro ps rs0 c
    by_cases h : expCond now r
    · simp only [List.foldl_cons, expireStep, h, if_true, List.filter_cons,
        List.map_cons]
      rw [ih]
      refine Prod.ext ?_ (Prod.ext ?_ ?_)
      · simp [releaseAll]
      · simp [expMark, h]
      · simp
        omega
    · simp only [List.foldl_cons, expireStep, h, if_false, List.filter_cons,
        List.map_cons]
      rw [ih]
      refine Prod.ext ?_ (Prod.ext ?_ ?_)
      · simp [h]
      · simp [expMark, h]
      · simp [h]

theorem expire_reservations_eq (s : Store) (now : Nat) :
    s.expire_reservations now =
      ({ s with
          products := releaseAll s.products
            (s.reservations.filter (expCond now))
          reservations := s.reservations.map (expMark now) },
       (s.reservations.filter (expCond now)).length) := by
  unfold Store.expire_reservations
  rw [foldl_expireStep]
  simp

theorem expCond_expMark_self (now : Nat) (r : Reservation) :
    expCond now (expMark now r) = false := by
  unfold expMark
  by_cases h : expCond now r
  · rw [if_pos h]
    simp [expCond]
  · rw [if_neg h]
    simpa using h

theorem expMark_of_not_active (now : Nat) (r : Reservation)
    (h : r.status ≠ ReservationStatus.active) : expMark now r = r := by
  unfold expMark expCond
  simp [h]

theorem expMark_quantity (now : Nat) (r : Reservation) :
    (expMark now r).quantity = r.quantity := by
  unfold expMark
  by_cases h : expCond now r <;> simp [h]

/-! ### Invariant preservation -/

theorem release_not_found (s : Store) (pid : String) (q : Int)
    (hp : s.get_product pid = none) : s.release pid q = (s, false) := by
  unfold Store.release
  rw [hp]

theorem release_found (s : Store) (pid : String) (q : Int) (p : Product)
    (hp : s.get_product pid = some p) :
    s.release pid q =
      ({ s with products := releaseQty s.products pid q }, true) := by
  unfold Store.release
  rw [hp]

theorem productsInv_releaseQty (ps : List Product) (pid : String) (q : Int)
    (hq : 0 ≤ q) (hps : ∀ p ∈ ps, 0 ≤ p.reserved ∧ p.reserved ≤ p.quantity) :
    ∀ p ∈ releaseQty ps pid q, 0 ≤ p.reserved ∧ p.reserved ≤ p.quantity := by
  intro p' hp'
  rcases mem_updateProduct hp' with ⟨p, hp, rfl⟩
  have hb := hps p hp
  by_cases h : p.product_id = pid
  · simp only [h, beq_self_eq_true, if_true]
    constructor
    · exact le_max_left _ _
    · show max 0 (p.reserved - q) ≤ p.quantity
      omega
  · have hb2 : (p.product_id == pid) = false := by simp [h]
    simp only [hb2, Bool.false_eq_true, if_false]
    exact hb

theorem keys_releaseQty (ps : List Product) (pid : String) (q : Int) :
    (releaseQty ps pid q).map Product.product_id = ps.map Product.product_id :=
  keys_updateProduct ps pid (fun p => { p with reserved := max 0 (p.reserved - q) })
    (fun _ => rfl)

theorem productsInv_releaseAll (rs : List Reservation) :
    ∀ ps : List Product, (∀ r ∈ rs, 0 ≤ r.quantity) →
    (∀ p ∈ ps, 0 ≤ p.reserved ∧ p.reserved ≤ p.quantity) →
    ∀ p ∈ releaseAll ps rs, 0 ≤ p.reserved ∧ p.reserved ≤ p.quantity := by
  induction rs with
  | nil =>
    intro ps _ hps
    exact hps
  | cons r rs ih =>
    intro ps hrs hps
    show ∀ p ∈ releaseAll (releaseQty ps r.product_id r.quantity) rs, _
    exact ih _ (fun r' h => hrs r' (List.mem_cons_of_mem r h))
      (productsInv_releaseQty ps r.product_id r.quantity
        (hrs r (List.mem_cons_self r rs)) hps)

theorem keys_releaseAll (rs : List Reservation) :
    ∀ ps : List Product,
    (releaseAll ps rs).map Product.product_id = ps.map Product.product_id := by
  induction rs with
  | nil => intro ps; rfl
  | cons r rs ih =>
    intro ps
    show (releaseAll (releaseQty ps r.product_id r.quantity) rs).map _ = _
    rw [ih, keys_releaseQty]

theorem storeInv_reserve (s : Store) (now : Nat) (pid oid : String) (q : Int)
    (hq : 0 ≤ q) (hs : StoreInv s) : StoreInv (s.reserve now pid q oid).1 := by
  obtain ⟨hprod, hres, hnd⟩ := hs
  cases hp : s.get_product pid with
  | none =>
    rw [reserve_not_found s now pid oid q hp]
    exact ⟨hprod, hres, hnd⟩
  | some p =>
    by_cases hav : p.available < q
    · rw [reserve_insufficient s now pid oid q p hp hav]
      exact ⟨hprod, hres, hnd⟩
    · rw [reserve_found s now pid oid q p hp hav]
      have hpmem : p ∈ s.products := by
        unfold Store.get_product at hp
        exact List.mem_of_find?_eq_some hp
      have hpb := hprod p hpmem
      have hpav : q ≤ max 0 (p.quantity - p.reserved) := not_lt.mp hav
      refine ⟨?_, ?_, ?_⟩
      · intro p' hp'
        rcases mem_updateProduct hp' with ⟨p0, hp0, rfl⟩
        by_cases hk : p0.product_id = pid
        · have hfind : s.products.find? (fun x => x.product_id == pid) = some p0 :=
            find?_eq_of_mem_key s.products pid hnd p0 hp0 hk
          unfold Store.get_product at hp
          have hp0p : p0 = p := by
            have := hfind.symm.trans hp
            exact Option.some.inj this
          subst hp0p
          simp only [hk, beq_self_eq_true, if_true]
          constructor
          · show (0 : Int) ≤ p0.reserved + q
            omega
          · show p0.reserved + q ≤ p0.quantity
            omega
        · have hb2 : (p0.product_id == pid) = false := by simp [hk]
          simp only [hb2, Bool.false_eq_true, if_false]
          exact hprod p0 hp0
      · intro r hr
        rcases List.mem_append.mp hr with h | h
        · exact hres r h
        · have : r = newReservation s now pid q oid := by simpa using h
          subst this
          exact hq
      · show (updateProduct s.products pid _).map Product.product_id |>.Nodup
        rw [keys_updateProduct s.products pid
          (fun x => { x with reserved := x.reserved + q }) (fun _ => rfl)]
        exact hnd

theorem storeInv_release (s : Store) (pid : String) (q : Int)
    (hq : 0 ≤ q) (hs : StoreInv s) : StoreInv (s.release pid q).1 := by
  obtain ⟨hprod, hres, hnd⟩ := hs
  cases hp : s.get_product pid with
  | none =>
    rw [release_not_found s pid q hp]
    exact ⟨hprod, hres, hnd⟩
  | some p =>
    rw [release_found s pid q p hp]
    refine ⟨?_, hres, ?_⟩
    · exact productsInv_releaseQty s.products pid q hq hprod
    · show (releaseQty s.products pid q).map Product.product_id |>.Nodup
      rw [keys_releaseQty]
      exact hnd

theorem storeInv_expire (s : Store) (now : Nat) (hs : StoreInv s) :
    StoreInv (s.expire_reservations now).1 := by
  obtain ⟨hprod, hres, hnd⟩ := hs
  rw [expire_reservations_eq]
  refine ⟨?_, ?_, ?_⟩
  · exact productsInv_releaseAll _ s.products
      (fun r h => hres r (List.mem_of_mem_filter h)) hprod
  · intro r hr
    rcases List.mem_map.mp hr with ⟨r0, hr0, rfl⟩
    rw [expMark_quantity]
    exact hres r0 hr0
  · show (releaseAll s.products _).map Product.product_id |>.Nodup
    rw [keys_releaseAll]
    exact hnd

theorem storeInv_applyOp (s : Store) (op : Op) (h : opNonneg op)
    (hs : StoreInv s) : StoreInv (applyOp s op) := by
  cases op with
  | reserveOp now pid q oid => exact storeInv_reserve s now pid oid q h hs
  | releaseOp pid q => exact storeInv_release s pid q h hs
  | expireOp now => exact storeInv_expire s now hs

theorem storeInv_runOps (ops : List Op) :
    ∀ s : Store, (∀ op ∈ ops, opNonneg op) → StoreInv s →
    StoreInv (runOps s ops) := by
  induction ops with
  | nil => intro s _ hs; exact hs
  | cons op ops ih =>
    intro s hops hs
    show StoreInv (runOps (applyOp s op) ops)
    exact ih _ (fun o h => hops o (List.mem_cons_of_mem op h))
      (storeInv_applyOp s op (hops op (List.mem_cons_self op ops)) hs)

theorem storeInv_init (ttl : Nat) : StoreInv (initStore ttl) := by
  refine ⟨?_, ?_, ?_⟩
  · intro p hp
    revert p
    show ∀ p ∈ seedCatalog, 0 ≤ p.reserved ∧ p.reserved ≤ p.quantity
    decide
  · intro r hr
    cases hr
  · show (seedCatalog.map Product.product_id).Nodup
    decide

/-! ### Named catalog entries used in concrete instances -/

/-- The seeded catalog entry for product `OLJCESPC7Z`. -/
def explorascope : Product :=
  { product_id := "OLJCESPC7Z"
    name := "National Park Foundation Explorascope"
    quantity := 100 }

/-- The seeded catalog entry for product `9SIQT8TOJO`. -/
def opticalTube : Product :=
  { product_id := "9SIQT8TOJO"
    name := "Optical Tube Assembly"
    quantity := 25 }

/-! ### Claims -/

/-- Claim C1, counterexample: the claim quantifies over all integer quantity
arguments, but the store accepts `release("OLJCESPC7Z", -101)` on the seeded
catalog (returns `true`) and leaves that product with `reserved = 101 >
quantity = 100`, violating `0 ≤ reserved ≤ quantity`; nothing is rejected or
clamped. -/
theorem C1_counterexample :
    ((initStore 900).release "OLJCESPC7Z" (-101)).2 = true ∧
    ¬ productsInv ((initStore 900).release "OLJCESPC7Z" (-101)).1 :=
  ⟨by decide, by decide⟩

/-- Claim C1, amended: for every product in the store, `0 ≤ reserved ≤
quantity` holds after every sequence of store operations (reserve, release,
expire_reservations) starting from the seeded catalog, provided every
quantity argument is nonnegative.  The store itself never rejects a
nonpositive quantity (that check lives only in the API validators), so the
invariant is not maintained for arbitrary integer arguments. -/
theorem C1_invariant_nonneg_ops (ttl : Nat) (ops : List Op)
    (h : ∀ op ∈ ops, opNonneg op) :
    productsInv (runOps (initStore ttl) ops) :=
  (storeInv_runOps ops (initStore ttl) h (storeInv_init ttl)).1

/-- Witness for C1: a concrete reserve/release/expire run keeps the
invariant. -/
theorem C1_invariant_nonneg_ops_witness :
    productsInv (runOps (initStore 900)
      [Op.reserveOp 0 "OLJCESPC7Z" 5 "", Op.releaseOp "OLJCESPC7Z" 3,
       Op.expireOp 2000]) :=
  C1_invariant_nonneg_ops 900
    [Op.reserveOp 0 "OLJCESPC7Z" 5 "", Op.releaseOp "OLJCESPC7Z" 3,
     Op.expireOp 2000] (by decide)

/-- Claim C2, counterexample: `reserve` with quantity `-3 ≤ 0` on an existing
seeded product is not a no-op failure: it succeeds, drives the reserved
counter to `-3`, and inserts a reservation into the table. -/
theorem C2_counterexample :
    ((initStore 900).reserve 0 "OLJCESPC7Z" (-3) "").2.isSome = true ∧
    ((initStore 900).reserve 0 "OLJCESPC7Z" (-3) "").1.get_product "OLJCESPC7Z"
      = some { explorascope with reserved := -3 } ∧
    ((initStore 900).reserve 0 "OLJCESPC7Z" (-3) "").1.reservations.length = 1 :=
  ⟨by decide, by decide, by decide⟩

/-- Claim C2, amended: a quantity ≤ 0 is rejected only by the API validator
(`validate_reserve_request`); the store's `reserve` itself treats it as
satisfiable (`available ≥ 0 ≥ quantity`), so on an existing product it
succeeds: it adds the quantity to the reserved counter (decreasing it when
negative) and inserts a reservation into the table. -/
theorem C2_nonpositive_reserve (s : Store) (now : Nat) (pid oid : String)
    (q : Int) (p : Product) (hp : s.get_product pid = some p) (hq : q ≤ 0) :
    (validate_reserve_request pid q).isSome = true ∧
    (s.reserve now pid q oid).2 = some (newReservation s now pid q oid) ∧
    (s.reserve now pid q oid).1.get_product pid =
      some { p with reserved := p.reserved + q } ∧
    (s.reserve now pid q oid).1.reservations =
      s.reservations ++ [newReservation s now pid q oid] := by
  have hav : ¬ p.available < q := by
    have h0 : (0 : Int) ≤ p.available := le_max_left _ _
    omega
  refine ⟨?_, ?_, ?_, ?_⟩
  · unfold validate_reserve_request
    by_cases hpid : pid = ""
    · simp [hpid]
    · have h1 : q < 1 := by omega
      simp [hpid, h1]
  · rw [reserve_found s now pid oid q p hp hav]
  · exact get_product_reserve s now pid oid q p hp hav
  · rw [reserve_found s now pid oid q p hp hav]

/-- Witness for C2 (amended) at quantity 0 on the seeded catalog. -/
theorem C2_nonpositive_reserve_witness :
    (validate_reserve_request "OLJCESPC7Z" 0).isSome = true ∧
    ((initStore 900).reserve 7 "OLJCESPC7Z" 0 "o1").2 =
      some (newReservation (initStore 900) 7 "OLJCESPC7Z" 0 "o1") ∧
    ((initStore 900).reserve 7 "OLJCESPC7Z" 0 "o1").1.get_product "OLJCESPC7Z"
      = some { explorascope with reserved := explorascope.reserved + 0 } ∧
    ((initStore 900).reserve 7 "OLJCESPC7Z" 0 "o1").1.reservations =
      (initStore 900).reservations ++
        [newReservation (initStore 900) 7 "OLJCESPC7Z" 0 "o1"] :=
  C2_nonpositive_reserve (initStore 900) 7 "OLJCESPC7Z" "o1" 0 explorascope
    (by decide) (by decide)

/-- Claim C3, counterexample: the engine (`InMemoryInventoryStore.reserve`)
returns the same bare `None` for a missing product and for insufficient
stock — the two failure causes are not distinguishable in the value the
store hands back. -/
theorem C3_counterexample :
    ((initStore 900).reserve 0 "NONEXISTENT" 1 "").2 = none ∧
    ((initStore 900).reserve 0 "9SIQT8TOJO" 9999 "").2 = none :=
  ⟨by decide, by decide⟩

/-- Claim C3, amended: the store returns `None` for both failure causes; it
is the API route `reserve_stock` that distinguishes them by re-querying
`get_product`: a missing product maps to a not-found response and an
existing product with `available < requested` maps to an
insufficient-stock response carrying the current available count. -/
theorem C3_route_discriminates (s : Store) (now : Nat) (pid oid : String)
    (q : Int) :
    (s.get_product pid = none →
      (reserve_stock_route s now pid q oid).2 = ReserveOutcome.notFound) ∧
    (∀ p : Product, s.get_product pid = some p → p.available < q →
      (reserve_stock_route s now pid q oid).2 =
        ReserveOutcome.insufficientStock p.available q) := by
  constructor
  · intro hp
    unfold reserve_stock_route
    rw [reserve_not_found s now pid oid q hp]
    simp [hp]
  · intro p hp hav
    unfold reserve_stock_route
    rw [reserve_insufficient s now pid oid q p hp hav]
    simp [hp]

/-- Witness for C3 (amended): both route outcomes at concrete inputs. -/
theorem C3_route_discriminates_witness :
    (reserve_stock_route (initStore 900) 0 "NONEXISTENT" 1 "").2 =
      ReserveOutcome.notFound ∧
    (reserve_stock_route (initStore 900) 0 "9SIQT8TOJO" 9999 "").2 =
      ReserveOutcome.insufficientStock opticalTube.available 9999 :=
  ⟨(C3_route_discriminates (initStore 900) 0 "NONEXISTENT" "" 1).1 (by decide),
   (C3_route_discriminates (initStore 900) 0 "9SIQT8TOJO" "" 9999).2
     opticalTube (by decide) (by decide)⟩

/-- `expMark` is idempotent: a reservation already swept is never marked
again. -/
theorem expMark_idem (now : Nat) (r : Reservation) :
    expMark now (expMark now r) = expMark now r := by
  by_cases hc : expCond now r
  · have h1 : expMark now r = { r with status := ReservationStatus.expired } := by
      unfold expMark
      rw [if_pos hc]
    rw [h1]
    unfold expMark
    rw [if_neg]
    simp [expCond]
  · have h1 : expMark now r = r := by
      unfold expMark
      rw [if_neg hc]
    rw [h1, h1]

/-- Claim C4: on an existing product with `available ≥ quantity ≥ 1`,
`reserve` adds the quantity to the product's reserved counter, appends a
new ACTIVE reservation with the given product, quantity and order id,
`created_at = now` and `expires_at = created_at + TTL`, keyed by the fresh
identifier, and returns that reservation. -/
theorem C4_reserve_success (s : Store) (now : Nat) (pid oid : String)
    (q : Int) (p : Product) (hp : s.get_product pid = some p) (_hq : 1 ≤ q)
    (hav : q ≤ p.available) :
    s.reserve now pid q oid =
      ({ s with
          products := updateProduct s.products pid
            (fun x => { x with reserved := x.reserved + q })
          reservations := s.reservations ++ [newReservation s now pid q oid]
          next_id := s.next_id + 1 },
       some (newReservation s now pid q oid)) ∧
    (s.reserve now pid q oid).1.get_product pid =
      some { p with reserved := p.reserved + q } ∧
    (newReservation s now pid q oid).status = ReservationStatus.active ∧
    (newReservation s now pid q oid).product_id = pid ∧
    (newReservation s now pid q oid).quantity = q ∧
    (newReservation s now pid q oid).order_id = oid ∧
    (newReservation s now pid q oid).reservation_id = toString s.next_id ∧
    (newReservation s now pid q oid).created_at = now ∧
    (newReservation s now pid q oid).expires_at =
      some ((newReservation s now pid q oid).created_at + s.reservation_ttl) := by
  have hav2 : ¬ p.available < q := not_lt.mpr hav
  exact ⟨reserve_found s now pid oid q p hp hav2,
    get_product_reserve s now pid oid q p hp hav2,
    rfl, rfl, rfl, rfl, rfl, rfl, rfl⟩

/-- Witness for C4 on the seeded catalog, quantity 5. -/
theorem C4_reserve_success_witness :
    (initStore 900).reserve 3 "OLJCESPC7Z" 5 "ord" =
      ({ initStore 900 with
          products := updateProduct (initStore 900).products "OLJCESPC7Z"
            (fun x => { x with reserved := x.reserved + 5 })
          reservations := (initStore 900).reservations ++
            [newReservation (initStore 900) 3 "OLJCESPC7Z" 5 "ord"]
          next_id := (initStore 900).next_id + 1 },
       some (newReservation (initStore 900) 3 "OLJCESPC7Z" 5 "ord")) ∧
    ((initStore 900).reserve 3 "OLJCESPC7Z" 5 "ord").1.get_product "OLJCESPC7Z"
      = some { explorascope with reserved := explorascope.reserved + 5 } ∧
    (newReservation (initStore 900) 3 "OLJCESPC7Z" 5 "ord").status =
      ReservationStatus.active ∧
    (newReservation (initStore 900) 3 "OLJCESPC7Z" 5 "ord").product_id =
      "OLJCESPC7Z" ∧
    (newReservation (initStore 900) 3 "OLJCESPC7Z" 5 "ord").quantity = 5 ∧
    (newReservation (initStore 900) 3 "OLJCESPC7Z" 5 "ord").order_id = "ord" ∧
    (newReservation (initStore 900) 3 "OLJCESPC7Z" 5 "ord").reservation_id =
      toString (initStore 900).next_id ∧
    (newReservation (initStore 900) 3 "OLJCESPC7Z" 5 "ord").created_at = 3 ∧
    (newReservation (initStore 900) 3 "OLJCESPC7Z" 5 "ord").expires_at =
      some ((newReservation (initStore 900) 3 "OLJCESPC7Z" 5 "ord").created_at +
        (initStore 900).reservation_ttl) :=
  C4_reserve_success (initStore 900) 3 "OLJCESPC7Z" "ord" 5 explorascope
    (by decide) (by decide) (by decide)

/-- Claim C5: a sweep at time `now` transitions exactly the reservations
that are ACTIVE with `expires_at` strictly before `now` (that is exactly
what `expCond` says — last conjunct), leaves every other reservation
unchanged, returns the number transitioned, and gives each transitioned
reservation's quantity back to its product with the reserved counter
clamped at 0 (`releaseAll`). -/
theorem C5_expire_exact (s : Store) (now : Nat) :
    (s.expire_reservations now).1.reservations =
      s.reservations.map (expMark now) ∧
    (∀ r ∈ s.reservations, expCond now r = false →
      r ∈ (s.expire_reservations now).1.reservations) ∧
    (s.expire_reservations now).2 =
      (s.reservations.filter (expCond now)).length ∧
    (s.expire_reservations now).1.products =
      releaseAll s.products (s.reservations.filter (expCond now)) ∧
    (∀ r : Reservation, expCond now r = true ↔
      (r.status = ReservationStatus.active ∧ r.is_expired now = true)) := by
  refine ⟨?_, ?_, ?_, ?_, ?_⟩
  · rw [expire_reservations_eq]
  · intro r hr hc
    rw [expire_reservations_eq]
    refine List.mem_map.mpr ⟨r, hr, ?_⟩
    unfold expMark
    rw [if_neg]
    simp [hc]
  · rw [expire_reservations_eq]
  · rw [expire_reservations_eq]
  · intro r
    unfold expCond
    simp

/-- A concrete store with two reservations made at TTL 10: one created at 0
(expires at 10), one created at 100 (expires at 110). -/
def demoStore : Store :=
  (((initStore 10).reserve 0 "OLJCESPC7Z" 5 "a").1.reserve 100 "9SIQT8TOJO" 3
    "b").1

/-- Witness for C5 on a concrete two-reservation store (one stale at the
sweep instant, one not). -/
theorem C5_expire_exact_witness :
    (demoStore.expire_reservations 50).1.reservations =
      demoStore.reservations.map (expMark 50) ∧
    (demoStore.expire_reservations 50).2 =
      (demoStore.reservations.filter (expCond 50)).length ∧
    (demoStore.expire_reservations 50).1.products =
      releaseAll demoStore.products (demoStore.reservations.filter (expCond 50)) :=
  ⟨(C5_expire_exact demoStore 50).1,
   (C5_expire_exact demoStore 50).2.2.1,
   (C5_expire_exact demoStore 50).2.2.2.1⟩

/-- Claim C6: sweeping at `n1` and again at `n2 ≥ n1` revisits no
reservation expired by the first sweep (each stays in the table unchanged),
the second count covers only reservations still ACTIVE after the first
sweep, and with the same instant the second sweep is the identity and
returns 0. -/
theorem C6_idempotent_sweep (s : Store) (n1 n2 : Nat) (h : n1 ≤ n2) :
    (∀ r ∈ (s.expire_reservations n1).1.reservations,
      r.status = ReservationStatus.expired →
      r ∈ ((s.expire_reservations n1).1.expire_reservations n2).1.reservations) ∧
    ((s.expire_reservations n1).1.expire_reservations n2).2 =
      ((s.expire_reservations n1).1.reservations.filter (expCond n2)).length ∧
    (n2 = n1 →
      ((s.expire_reservations n1).1.expire_reservations n2).1 =
        (s.expire_reservations n1).1 ∧
      ((s.expire_reservations n1).1.expire_reservations n2).2 = 0) := by
  have hres1 : (s.expire_reservations n1).1.reservations =
      s.reservations.map (expMark n1) := by
    rw [expire_reservations_eq]
  refine ⟨?_, ?_, ?_⟩
  · intro r hr hst
    rw [expire_reservations_eq]
    refine List.mem_map.mpr ⟨r, hr, expMark_of_not_active n2 r ?_⟩
    rw [hst]
    intro hc
    cases hc
  · rw [expire_reservations_eq]
  · intro he
    subst he
    have hnil : (s.expire_reservations n2).1.reservations.filter (expCond n2)
        = [] := by
      rw [List.filter_eq_nil_iff]
      intro r hr
      rw [hres1] at hr
      rcases List.mem_map.mp hr with ⟨r0, _, rfl⟩
      simp [expCond_expMark_self]
    have hmap : (s.expire_reservations n2).1.reservations.map (expMark n2) =
        (s.expire_reservations n2).1.reservations := by
      rw [hres1, List.map_map]
      apply List.map_congr_left
      intro r _
      exact expMark_idem n2 r
    constructor
    · rw [expire_reservations_eq, hnil, hmap]
      rfl
    · rw [expire_reservations_eq, hnil]
      rfl

/-- Claim C7: `release` returns false exactly when the product is absent;
on an existing product it sets `reserved` to `max(0, reserved - quantity)`
and returns true, so releasing at least the reserved amount leaves the
counter at 0, never negative. -/
theorem C7_release_spec (s : Store) (pid : String) (q : Int) :
    ((s.release pid q).2 = false ↔ s.get_product pid = none) ∧
    (∀ p : Product, s.get_product pid = some p →
      (s.release pid q).2 = true ∧
      (s.release pid q).1.get_product pid =
        some { p with reserved := max 0 (p.reserved - q) }) ∧
    (∀ p : Product, s.get_product pid = some p → p.reserved ≤ q →
      (s.release pid q).1.get_product pid = some { p with reserved := 0 }) := by
  refine ⟨?_, ?_, ?_⟩
  · cases hp : s.get_product pid with
    | none =>
      rw [release_not_found s pid q hp]
      simp
    | some p =>
      rw [release_found s pid q p hp]
      simp
  · intro p hp
    constructor
    · rw [release_found s pid q p hp]
    · exact get_product_release s pid q p hp
  · intro p hp hle
    rw [get_product_release s pid q p hp]
    have hm : max 0 (p.reserved - q) = 0 := by omega
    rw [hm]

/-- Witness for C7: absent product, normal release, and over-release
clamping to 0 on the seeded catalog. -/
theorem C7_release_spec_witness :
    ((initStore 900).release "NONEXISTENT" 5).2 = false ∧
    ((initStore 900).release "OLJCESPC7Z" 5).2 = true ∧
    ((initStore 900).release "OLJCESPC7Z" 5).1.get_product "OLJCESPC7Z" =
      some { explorascope with reserved := max 0 (explorascope.reserved - 5) } ∧
    ((initStore 900).release "OLJCESPC7Z" 5).1.get_product "OLJCESPC7Z" =
      some { explorascope with reserved := 0 } :=
  ⟨(C7_release_spec (initStore 900) "NONEXISTENT" 5).1.mpr (by decide),
   ((C7_release_spec (initStore 900) "OLJCESPC7Z" 5).2.1 explorascope
     (by decide)).1,
   ((C7_release_spec (initStore 900) "OLJCESPC7Z" 5).2.1 explorascope
     (by decide)).2,
   (C7_release_spec (initStore 900) "OLJCESPC7Z" 5).2.2 explorascope
     (by decide) (by decide)⟩

/-- Claim C8: if `reserve` of quantity `q` succeeds on a product whose
reserved counter is nonnegative (the data-model invariant), an immediate
`release` of `q` on the same product restores the product record exactly,
hence both `available` and `reserved` return to their pre-reservation
values. -/
theorem C8_round_trip (s : Store) (now : Nat) (pid oid : String) (q : Int)
    (p : Product) (hp : s.get_product pid = some p) (h0 : 0 ≤ p.reserved)
    (hsucc : ((s.reserve now pid q oid).2).isSome = true) :
    ((s.reserve now pid q oid).1.release pid q).1.get_product pid = some p := by
  by_cases hav : p.available < q
  · rw [reserve_insufficient s now pid oid q p hp hav] at hsucc
    simp at hsucc
  · have h1 : (s.reserve now pid q oid).1.get_product pid =
        some { p with reserved := p.reserved + q } :=
      get_product_reserve s now pid oid q p hp hav
    rw [get_product_release (s.reserve now pid q oid).1 pid q _ h1]
    obtain ⟨pi, pn, pq, pr, pw⟩ := p
    have h3 : max 0 (pr + q - q) = pr := by
      simp only at h0
      omega
    simp only [h3]

/-- Witness for C8 on the seeded catalog with quantity 7. -/
theorem C8_round_trip_witness :
    (((initStore 900).reserve 0 "OLJCESPC7Z" 7 "").1.release "OLJCESPC7Z"
      7).1.get_product "OLJCESPC7Z" = some explorascope :=
  C8_round_trip (initStore 900) 0 "OLJCESPC7Z" "" 7 explorascope
    (by decide) (by decide) (by decide)

/-- The store after reserving 20 units of `9SIQT8TOJO` (seeded quantity 25). -/
def scnA : Store := ((initStore 900).reserve 0 "9SIQT8TOJO" 20 "").1

/-- The store after additionally reserving the remaining 5 units. -/
def scnB : Store := (scnA.reserve 1 "9SIQT8TOJO" 5 "").1

/-- Claim C9: the derived fields obey `available = max(0, quantity -
reserved)` and the status thresholds (0 / 10); and the spec scenario on the
product seeded with quantity 25: reserve 20 succeeds leaving available 5
(LOW_STOCK), reserve 5 succeeds leaving available 0 (OUT_OF_STOCK), reserve
1 then fails with available still 0. -/
theorem C9_derived_fields_and_scenario :
    (∀ p : Product, p.available = max 0 (p.quantity - p.reserved) ∧
      p.status = (if p.available = 0 then StockStatus.out_of_stock
        else if p.available < 10 then StockStatus.low_stock
        else StockStatus.in_stock)) ∧
    ((initStore 900).reserve 0 "9SIQT8TOJO" 20 "").2.isSome = true ∧
    (scnA.get_product "9SIQT8TOJO").map Product.available = some 5 ∧
    (scnA.get_product "9SIQT8TOJO").map Product.status =
      some StockStatus.low_stock ∧
    (scnA.reserve 1 "9SIQT8TOJO" 5 "").2.isSome = true ∧
    (scnB.get_product "9SIQT8TOJO").map Product.available = some 0 ∧
    (scnB.get_product "9SIQT8TOJO").map Product.status =
      some StockStatus.out_of_stock ∧
    (scnB.reserve 2 "9SIQT8TOJO" 1 "").2 = none ∧
    ((scnB.reserve 2 "9SIQT8TOJO" 1 "").1.get_product "9SIQT8TOJO").map
      Product.available = some 0 := by
  refine ⟨?_, by decide, by decide, by decide, by decide, by decide,
    by decide, by decide, by decide⟩
  intro p
  refine ⟨rfl, ?_⟩
  unfold Product.status
  have h0 : (0 : Int) ≤ p.available := le_max_left _ _
  by_cases h : p.available = 0
  · rw [if_pos (by omega), if_pos h]
  · rw [if_neg (by omega), if_neg h]

/-- Claim C10: a failed `reserve` (returning `None`) and a failed `release`
(returning false) leave the whole store state unchanged. -/
theorem C10_failure_leaves_state (s : Store) (now : Nat) (pid oid : String)
    (q : Int) :
    ((s.reserve now pid q oid).2 = none → (s.reserve now pid q oid).1 = s) ∧
    ((s.release pid q).2 = false → (s.release pid q).1 = s) := by
  constructor
  · intro h
    cases hp : s.get_product pid with
    | none => rw [reserve_not_found s now pid oid q hp]
    | some p =>
      by_cases hav : p.available < q
      · rw [reserve_insufficient s now pid oid q p hp hav]
      · rw [reserve_found s now pid oid q p hp hav] at h
        simp at h
  · intro h
    cases hp : s.get_product pid with
    | none => rw [release_not_found s pid q hp]
    | some p =>
      rw [release_found s pid q p hp] at h
      simp at h

/-- Witness for C10: failed reserve and failed release on a missing product
leave the seeded store intact. -/
theorem C10_failure_leaves_state_witness :
    ((initStore 900).reserve 0 "NONEXISTENT" 1 "").1 = initStore 900 ∧
    ((initStore 900).release "NONEXISTENT" 1).1 = initStore 900 :=
  ⟨(C10_failure_leaves_state (initStore 900) 0 "NONEXISTENT" "" 1).1
     (by decide),
   (C10_failure_leaves_state (initStore 900) 0 "NONEXISTENT" "" 1).2
     (by decide)⟩

/-- Witness for C6: double sweep at the same instant on the concrete store
is the identity and returns 0. -/
theorem C6_idempotent_sweep_witness :
    ((demoStore.expire_reservations 50).1.expire_reservations 50).1 =
      (demoStore.expire_reservations 50).1 ∧
    ((demoStore.expire_reservations 50).1.expire_reservations 50).2 = 0 :=
  (C6_idempotent_sweep demoStore 50 50 (by decide)).2.2 rfl
